import Mathlib

/-!
Verification of the runner-game repository slice: the persisted UI-language
store (i18n) and the PWA install advisor (platform classifier, dismissal
cooldown, session event machine).  All definitions are shallow embeddings of
the TypeScript source; machine integers and wall-clock times are modelled as
`Int` (JS numbers used only integrally), strings as Lean `String`.
-/

namespace RunnerGame

/-! ## String helpers: substring tests mirroring JS `RegExp.test` on
alternation-of-literals patterns, with optional `/i` flag via ASCII
lowercasing. -/

/-- `hasPref sub s` is true when the char list `sub` is an initial segment of `s`. -/
def hasPref : List Char → List Char → Bool
  | [], _ => true
  | _ :: _, [] => false
  | a :: as, b :: bs => a == b && hasPref as bs

/-- `hasSub sub s` is true when `sub` occurs contiguously inside `s`. -/
def hasSub (sub : List Char) : List Char → Bool
  | [] => sub.isEmpty
  | s@(_ :: rest) => hasPref sub s || hasSub sub rest

/-- JS `new RegExp(lit).test(s)` for a literal pattern `lit` (case sensitive). -/
def strContains (s lit : String) : Bool := hasSub lit.data s.data

/-- ASCII lowercasing, matching what the `/i` regex flag does on the
ASCII-only literal patterns used by the source. -/
def lowerStr (s : String) : String := String.mk (s.data.map Char.toLower)

/-- Case-insensitive literal test, i.e. JS `/lit/i.test(s)`. -/
def strContainsCI (s lit : String) : Bool := hasSub (lowerStr lit).data (lowerStr s).data

/-- JS `/a|b|.../.test(s)` for a list of literal alternatives (case sensitive). -/
def containsAnyOf (s : String) (lits : List String) : Bool := lits.any (fun l => strContains s l)

/-- JS `/a|b|.../i.test(s)` for a list of literal alternatives (case insensitive). -/
def containsAnyOfCI (s : String) (lits : List String) : Bool := lits.any (fun l => strContainsCI s l)

/-! ## Platform classifier (`detectPlatform` in the source) -/

/-- The `PromptType` union of the source:
`'none' | 'native' | 'ios-safari' | 'ios-other' | 'wechat' | 'android-fallback'`. -/
inductive PromptType where
  | none
  | native
  | iosSafari
  | iosOther
  | wechat
  | androidFallback
deriving DecidableEq

/-- The browser environment read by the classifier: user agent,
`matchMedia('(display-mode: standalone)').matches`, the iOS-only
`navigator.standalone` flag, `navigator.platform` and
`navigator.maxTouchPoints`. -/
structure Env where
  ua : String
  displayModeStandalone : Bool
  navStandalone : Bool
  platform : String
  maxTouchPoints : Nat
deriving DecidableEq

/-- `window.matchMedia('(display-mode: standalone)').matches || navigator.standalone === true`. -/
def isStandaloneEnv (e : Env) : Bool := e.displayModeStandalone || e.navStandalone

/-- `/iPad|iPhone|iPod/.test(ua) || (navigator.platform === 'MacIntel' && navigator.maxTouchPoints > 1)`. -/
def testIOS (e : Env) : Bool :=
  containsAnyOf e.ua ["iPad", "iPhone", "iPod"]
    || (e.platform == "MacIntel" && decide (e.maxTouchPoints > 1))

/-- The in-app-browser signature literals of the source regex
`/MicroMessenger|QQ\/|wxwork|DingTalk|Weibo/i` (note `QQ/`, with a slash). -/
def codeInAppSigs : List String := ["MicroMessenger", "QQ/", "wxwork", "DingTalk", "Weibo"]

/-- `/MicroMessenger|QQ\/|wxwork|DingTalk|Weibo/i.test(ua)`. -/
def testInApp (ua : String) : Bool := containsAnyOfCI ua codeInAppSigs

/-- `/Safari/.test(ua) && !/Chrome|CriOS|FxiOS|EdgiOS|OPiOS/.test(ua)`. -/
def testSafariUA (ua : String) : Bool :=
  strContains ua "Safari" && !containsAnyOf ua ["Chrome", "CriOS", "FxiOS", "EdgiOS", "OPiOS"]

/-- `/Android/i.test(ua)`. -/
def testAndroid (ua : String) : Bool := strContainsCI ua "Android"

/-- Shallow embedding of the source function `detectPlatform`:
returns the `(promptType, isStandalone)` pair following the source's
cascading conditionals in their exact order. -/
def detectPlatform (e : Env) : PromptType × Bool :=
  if isStandaloneEnv e then (PromptType.none, true)
  else if testInApp e.ua then (PromptType.wechat, false)
  else if testIOS e then
    (if testSafariUA e.ua then (PromptType.iosSafari, false) else (PromptType.iosOther, false))
  else (PromptType.native, false)

/-! ## Localization store (the i18n source file) -/

/-- `type Language = 'en' | 'zh'`. -/
inductive Language where
  | en
  | zh
deriving DecidableEq

/-- The fixed key set of the `Translations` interface. -/
inductive TKey where
  | initRunKey
  | controlHint
  | cyberShop
  | availableCredits
  | resumeMission
  | gems
  | doubleJump
  | doubleJumpDesc
  | maxLifeUp
  | maxLifeUpDesc
  | repairKit
  | repairKitDesc
  | immortality
  | immortalityDesc
  | gameOver
  | level
  | gemsCollected
  | distance
  | totalScore
  | runAgain
  | missionComplete
  | victoryMessage
  | finalScore
  | restartMission
  | speed
  | immortal
deriving DecidableEq

/-- The JS property-name string of each key (what the `|| key` fallback of
`t` would return).  `initRunKey` stands for the source key whose JS name is
the string below. -/
def keyName : TKey → String
  | .initRunKey => "initializeRun"
  | .controlHint => "controlHint"
  | .cyberShop => "cyberShop"
  | .availableCredits => "availableCredits"
  | .resumeMission => "resumeMission"
  | .gems => "gems"
  | .doubleJump => "doubleJump"
  | .doubleJumpDesc => "doubleJumpDesc"
  | .maxLifeUp => "maxLifeUp"
  | .maxLifeUpDesc => "maxLifeUpDesc"
  | .repairKit => "repairKit"
  | .repairKitDesc => "repairKitDesc"
  | .immortality => "immortality"
  | .immortalityDesc => "immortalityDesc"
  | .gameOver => "gameOver"
  | .level => "level"
  | .gemsCollected => "gemsCollected"
  | .distance => "distance"
  | .totalScore => "totalScore"
  | .runAgain => "runAgain"
  | .missionComplete => "missionComplete"
  | .victoryMessage => "victoryMessage"
  | .finalScore => "finalScore"
  | .restartMission => "restartMission"
  | .speed => "speed"
  | .immortal => "immortal"

/-- The static bilingual dictionary `translations` of the source. -/
def translations : Language → TKey → String
  | .en, .initRunKey => "INITIALIZE RUN"
  | .en, .controlHint => "[ ARROWS / BUTTONS TO MOVE ]"
  | .en, .cyberShop => "CYBER SHOP"
  | .en, .availableCredits => "AVAILABLE CREDITS:"
  | .en, .resumeMission => "RESUME MISSION"
  | .en, .gems => "GEMS"
  | .en, .doubleJump => "DOUBLE JUMP"
  | .en, .doubleJumpDesc => "Jump again in mid-air. Essential for high obstacles."
  | .en, .maxLifeUp => "MAX LIFE UP"
  | .en, .maxLifeUpDesc => "Permanently adds a heart slot and heals you."
  | .en, .repairKit => "REPAIR KIT"
  | .en, .repairKitDesc => "Restores 1 Life point instantly."
  | .en, .immortality => "IMMORTALITY"
  | .en, .immortalityDesc => "Unlock Ability: Press Space/Tap to be invincible for 5s."
  | .en, .gameOver => "GAME OVER"
  | .en, .level => "LEVEL"
  | .en, .gemsCollected => "GEMS COLLECTED"
  | .en, .distance => "DISTANCE"
  | .en, .totalScore => "TOTAL SCORE"
  | .en, .runAgain => "RUN AGAIN"
  | .en, .missionComplete => "MISSION COMPLETE"
  | .en, .victoryMessage => "THE ANSWER TO THE UNIVERSE HAS BEEN FOUND"
  | .en, .finalScore => "FINAL SCORE"
  | .en, .restartMission => "RESTART MISSION"
  | .en, .speed => "SPEED"
  | .en, .immortal => "IMMORTAL"
  | .zh, .initRunKey => "开始游戏"
  | .zh, .controlHint => "[ 方向键 / 按钮移动 ]"
  | .zh, .cyberShop => "赛博商店"
  | .zh, .availableCredits => "可用积分："
  | .zh, .resumeMission => "继续任务"
  | .zh, .gems => "宝石"
  | .zh, .doubleJump => "二段跳"
  | .zh, .doubleJumpDesc => "在空中再次跳跃，跨越高障碍必备。"
  | .zh, .maxLifeUp => "生命上限提升"
  | .zh, .maxLifeUpDesc => "永久增加一颗心并恢复生命。"
  | .zh, .repairKit => "修复工具"
  | .zh, .repairKitDesc => "立即恢复1点生命值。"
  | .zh, .immortality => "无敌护盾"
  | .zh, .immortalityDesc => "解锁技能：按空格/点击可无敌5秒。"
  | .zh, .gameOver => "游戏结束"
  | .zh, .level => "关卡"
  | .zh, .gemsCollected => "收集宝石"
  | .zh, .distance => "距离"
  | .zh, .totalScore => "总分"
  | .zh, .runAgain => "再来一次"
  | .zh, .missionComplete => "任务完成"
  | .zh, .victoryMessage => "宇宙的答案已被找到"
  | .zh, .finalScore => "最终得分"
  | .zh, .restartMission => "重新开始"
  | .zh, .speed => "速度"
  | .zh, .immortal => "无敌"

/-- JS `a || b` restricted to strings: the empty string is the only falsy
string value, so `a || b` returns `b` exactly when `a` is empty. -/
def jsOr (a b : String) : String := if a = "" then b else a

/-- The lookup `t` of the source store:
`translations[lang][key] || translations['en'][key] || key`. -/
def t (lang : Language) (key : TKey) : String :=
  jsOr (translations lang key) (jsOr (translations Language.en key) (keyName key))

/-- The mutable part of the zustand store state: the active language
(the function fields `setLanguage`/`t` close over this). -/
structure I18nStore where
  language : Language
deriving DecidableEq

/-- The store's initial state: `language: 'en'`. -/
def initialStore : I18nStore := { language := Language.en }

/-- `setLanguage(lang)`: unconditionally replaces the active language. -/
def setLanguage (lang : Language) (_s : I18nStore) : I18nStore := { language := lang }

/-- The store-level lookup: `t` evaluated at the store's current language. -/
def storeT (s : I18nStore) (key : TKey) : String := t s.language key

/-! ## Install advisor session machine (the full `PWAInstallPrompt` component)

The component's mount effect, its two event listeners, its timers and its
two user callbacks are embedded as a state record plus a step function over
an event alphabet.  Each platform signal, timer expiry and user action is an
input event; timers are modelled as pending flags consumed by their expiry
events.  Wall-clock times (`Date.now()`, the stored dismissal record) are
`Int` epoch milliseconds. -/

/-- Durable storage as the advisor sees it: the value under the fixed key
`'pwa-install-dismissed'` (`none` when the key is absent). -/
structure Storage where
  dismissedAt : Option Int
deriving DecidableEq

/-- The advisor's session state: the React state hooks (`promptType`,
`visible`, `deferredPrompt` — the handle modelled as a held/not-held flag),
the mount effect's closure variable `nativeFired`, which listeners are
currently registered, which timers are pending, and the storage it writes. -/
structure SessionState where
  promptType : PromptType
  visible : Bool
  deferredPrompt : Bool
  bipListener : Bool
  aiListener : Bool
  pendingShow : Bool
  fallbackTimer : Bool
  nativeFired : Bool
  storage : Storage
deriving DecidableEq

/-- The state before the mount effect runs: `useState` initial values
(`promptType: 'none'`, `visible: false`, `deferredPrompt: null`), nothing
registered, nothing pending. -/
def initS (st : Storage) : SessionState :=
  { promptType := PromptType.none
    visible := false
    deferredPrompt := false
    bipListener := false
    aiListener := false
    pendingShow := false
    fallbackTimer := false
    nativeFired := false
    storage := st }

/-- The cooldown test of the mount effect:
`dismissedAt && Date.now() - parseInt(dismissedAt) < 24 * 60 * 60 * 1000`. -/
def cooldownActive (st : Storage) (now : Int) : Bool :=
  match st.dismissedAt with
  | Option.none => false
  | Option.some t0 => decide (now - t0 < 24 * 60 * 60 * 1000)

/-- The mount effect (`useEffect` body) of the full advisor, in source
order: classify, return early when standalone, return early when the
dismissal cooldown is active, schedule the 2.5-unit show timer for the
non-native classifications, otherwise register both platform listeners and
— on Android only — arm the 3.5-unit fallback timer. -/
def mount (e : Env) (st : Storage) (now : Int) : SessionState :=
  if (detectPlatform e).2 then initS st
  else if cooldownActive st now then initS st
  else if (detectPlatform e).1 = PromptType.wechat ∨ (detectPlatform e).1 = PromptType.iosSafari
      ∨ (detectPlatform e).1 = PromptType.iosOther then
    { initS st with promptType := (detectPlatform e).1, pendingShow := true }
  else
    { initS st with bipListener := true, aiListener := true, fallbackTimer := testAndroid e.ua }

/-- The session's input events: the two display timers expiring, the two
platform signals, the two user actions (dismiss carries the wall clock it
reads; install carries the asynchronous user-choice outcome), and unmount. -/
inductive Ev where
  | showTimer
  | fallbackTimer
  | bip
  | appInstalled
  | dismiss (now : Int)
  | install (accepted : Bool)
  | unmount
deriving DecidableEq

/-- One event step, mirroring the corresponding source handler.
A listener's handler runs only while that listener is registered; a timer's
callback runs only while that timer is pending (and firing consumes it).
`dismiss` is `handleDismiss` (hide, persist `now`); `install` is
`handleInstall` (no-op without a held handle; hides and drops the handle,
resetting the classification only on acceptance); `unmount` is the effect's
cleanup: it removes the `beforeinstallprompt` listener and clears the
fallback timer — and, exactly as in the source, nothing else. -/
def step (s : SessionState) : Ev → SessionState
  | Ev.showTimer =>
      if s.pendingShow then { s with pendingShow := false, visible := true } else s
  | Ev.fallbackTimer =>
      if s.fallbackTimer then
        if s.nativeFired then { s with fallbackTimer := false }
        else { s with fallbackTimer := false, promptType := PromptType.androidFallback, visible := true }
      else s
  | Ev.bip =>
      if s.bipListener then
        { s with
          nativeFired := true
          deferredPrompt := true
          promptType := PromptType.native
          pendingShow := true }
      else s
  | Ev.appInstalled =>
      if s.aiListener then
        { s with visible := false, deferredPrompt := false, promptType := PromptType.none }
      else s
  | Ev.dismiss now =>
      { s with visible := false, storage := { dismissedAt := Option.some now } }
  | Ev.install accepted =>
      if s.deferredPrompt then
        if accepted then
          { s with promptType := PromptType.none, visible := false, deferredPrompt := false }
        else { s with visible := false, deferredPrompt := false }
      else s
  | Ev.unmount => { s with bipListener := false, fallbackTimer := false }

/-- Run a list of events through the session. -/
def run (s : SessionState) : List Ev → SessionState
  | [] => s
  | ev :: evs => run (step s ev) evs

/-- The render guard of the component:
`if (!visible || promptType === 'none') return null` — guidance is on
screen exactly when `visible` holds and the classification is not `none`. -/
def guidanceShown (s : SessionState) : Bool :=
  s.visible && decide (s.promptType ≠ PromptType.none)

/-! ### Evaluation-order instrumentation of the mount effect
(for the claim about whether classification precedes the cooldown check).
`mountTrace` lists, in the statement order of the `useEffect` body, the
observable actions the effect performs before returning. -/

/-- The observable actions of the mount effect. -/
inductive Action where
  | classify
  | readDismissRecord
  | scheduleShow
  | registerBip
  | registerAppInstalled
  | scheduleFallback
deriving DecidableEq

/-- The actions performed by the mount effect, in source statement order:
`detectPlatform()` is called first (line order), the storage read happens
only when not standalone, and registrations/timer arming happen only past
the cooldown early-return. -/
def mountTrace (e : Env) (st : Storage) (now : Int) : List Action :=
  Action.classify ::
    (if (detectPlatform e).2 then []
     else Action.readDismissRecord ::
       (if cooldownActive st now then []
        else if (detectPlatform e).1 = PromptType.wechat ∨ (detectPlatform e).1 = PromptType.iosSafari
            ∨ (detectPlatform e).1 = PromptType.iosOther then [Action.scheduleShow]
        else [Action.registerBip, Action.registerAppInstalled]
          ++ (if testAndroid e.ua then [Action.scheduleFallback] else [])))

/-! ## Legacy prompt component (the first document of the same source file)

The repository also contains the earlier, simpler `PWAInstallPrompt`.  Only
its dismiss handler matters for the claims: `handleDismiss` there merely
hides the card (`setShowPrompt(false)`) and writes nothing to storage. -/

/-- The legacy component's state hooks plus the storage it could have
written (it never does). -/
structure LegacyState where
  showPrompt : Bool
  isInstalled : Bool
  deferredPrompt : Bool
  storage : Storage
deriving DecidableEq

/-- The legacy `handleDismiss`: `setShowPrompt(false)` and nothing else. -/
def legacyHandleDismiss (s : LegacyState) : LegacyState := { s with showPrompt := false }

/-! ## Spec-side comparison definitions -/

/-- The in-app-browser signature list exactly as the spec claim words it:
"MicroMessenger, QQ, wxwork, DingTalk, Weibo" — bare `QQ`, no slash. -/
def claimedInAppSigs : List String := ["MicroMessenger", "QQ", "wxwork", "DingTalk", "Weibo"]

/-- The classification cascade exactly as the spec claim words it,
parameterised by the in-app signature list: standalone wins, then in-app
signatures (case-insensitively), then iOS with the Safari token and none of
the other-browser tokens, then the remaining iOS devices, else the
native-install candidate. -/
def specClassifyWith (sigs : List String) (e : Env) : PromptType :=
  if isStandaloneEnv e then PromptType.none
  else if containsAnyOfCI e.ua sigs then PromptType.wechat
  else if testIOS e
      && (strContains e.ua "Safari"
          && !containsAnyOf e.ua ["Chrome", "CriOS", "FxiOS", "EdgiOS", "OPiOS"]) then
    PromptType.iosSafari
  else if testIOS e then PromptType.iosOther
  else PromptType.native

/-- The cascade with the claim's literal signature list (bare `QQ`). -/
def specClassifyClaimed (e : Env) : PromptType := specClassifyWith claimedInAppSigs e

/-- The cascade with the source's signature list (`QQ/`). -/
def specClassify (e : Env) : PromptType := specClassifyWith codeInAppSigs e

/-- The lookup chain exactly as the spec words it, with "entry is absent"
read as the only notion of absence the total dictionary record admits — the
JS-falsy empty string: active language first, then the default language
`'en'`, then the key string itself. -/
def lookupSpec (lang : Language) (key : TKey) : String :=
  if translations lang key ≠ "" then translations lang key
  else if translations Language.en key ≠ "" then translations Language.en key
  else keyName key

/-! ## Concrete environments used by counterexamples and witnesses -/

/-- An iPhone Safari user agent that mentions the bare token `QQ` without a
following slash (so the source's `QQ/` signature does not match). -/
def envQQ : Env :=
  { ua := "Mozilla/5.0 (iPhone) QQ Safari/604.1"
    displayModeStandalone := false
    navStandalone := false
    platform := "iPhone"
    maxTouchPoints := 5 }

/-- A WeChat in-app browser environment. -/
def envWeChat : Env :=
  { ua := "Mozilla/5.0 (iPhone) MicroMessenger/8.0"
    displayModeStandalone := false
    navStandalone := false
    platform := "iPhone"
    maxTouchPoints := 5 }

/-- An iPhone Safari environment. -/
def envIPhoneSafari : Env :=
  { ua := "Mozilla/5.0 (iPhone) Version/17.0 Mobile Safari/604.1"
    displayModeStandalone := false
    navStandalone := false
    platform := "iPhone"
    maxTouchPoints := 5 }

/-- An Android Chrome environment (native-capable, Android OS). -/
def envAndroid : Env :=
  { ua := "Mozilla/5.0 (Linux; Android 13) Chrome/120 Mobile"
    displayModeStandalone := false
    navStandalone := false
    platform := "Linux armv8l"
    maxTouchPoints := 5 }

/-- A desktop Chrome environment (native-capable, not Android). -/
def envDesktop : Env :=
  { ua := "Mozilla/5.0 (Windows NT 10.0; Win64; x64) Chrome/120"
    displayModeStandalone := false
    navStandalone := false
    platform := "Win32"
    maxTouchPoints := 0 }

/-! ## Helper lemmas about the session machine -/

theorem run_append (s : SessionState) (as bs : List Ev) :
    run s (as ++ bs) = run (run s as) bs := by
  induction as generalizing s with
  | nil => rfl
  | cons a as ih => simp [run, ih]

/-- A session in which nothing is registered or pending and nothing is on
screen: the shape the mount effect leaves behind on its early returns. -/
def dormant (s : SessionState) : Prop :=
  s.visible = false ∧ s.pendingShow = false ∧ s.fallbackTimer = false
    ∧ s.bipListener = false ∧ s.aiListener = false ∧ s.deferredPrompt = false

theorem dormant_initS (st : Storage) : dormant (initS st) := by
  simp [dormant, initS]

theorem dormant_step (s : SessionState) (ev : Ev) (h : dormant s) : dormant (step s ev) := by
  obtain ⟨h1, h2, h3, h4, h5, h6⟩ := h
  cases ev <;> simp [step, dormant, h1, h2, h3, h4, h5, h6]

theorem dormant_run (s : SessionState) (evs : List Ev) (h : dormant s) : dormant (run s evs) := by
  induction evs generalizing s with
  | nil => exact h
  | cons ev evs ih => exact ih _ (dormant_step s ev h)

theorem guidanceShown_of_not_visible (s : SessionState) (h : s.visible = false) :
    guidanceShown s = false := by
  simp [guidanceShown, h]

theorem dormant_no_guidance (s : SessionState) (evs : List Ev) (h : dormant s) :
    guidanceShown (run s evs) = false :=
  guidanceShown_of_not_visible _ (dormant_run s evs h).1

theorem mount_of_cooldown (e : Env) (st : Storage) (now : Int)
    (h : cooldownActive st now = true) : mount e st now = initS st := by
  unfold mount
  split
  · rfl
  · simp [h]

/-- No event ever changes whether the `appinstalled` listener is registered:
the cleanup function does not remove it. -/
theorem aiListener_step (s : SessionState) (ev : Ev) :
    (step s ev).aiListener = s.aiListener := by
  cases ev <;> simp only [step] <;> (repeat' split) <;> rfl

theorem aiListener_run (s : SessionState) (evs : List Ev) :
    (run s evs).aiListener = s.aiListener := by
  induction evs generalizing s with
  | nil => rfl
  | cons ev evs ih => rw [run, ih, aiListener_step]

/-- No event ever resets the mount closure's `nativeFired` flag. -/
theorem nativeFired_step (s : SessionState) (ev : Ev) (h : s.nativeFired = true) :
    (step s ev).nativeFired = true := by
  cases ev <;> simp only [step] <;> (repeat' split) <;> simp_all

theorem nativeFired_run (s : SessionState) (evs : List Ev) (h : s.nativeFired = true) :
    (run s evs).nativeFired = true := by
  induction evs generalizing s with
  | nil => exact h
  | cons ev evs ih => exact ih _ (nativeFired_step s ev h)

/-- After the `appinstalled` handler has reset the classification to
`'none'`, no event other than a further `beforeinstallprompt` signal can
change it back, as long as the availability signal had already fired once
(`nativeFired`, which disarms the fallback timer's guard). -/
def installedQuiet (s : SessionState) : Prop :=
  s.promptType = PromptType.none ∧ s.nativeFired = true

theorem installedQuiet_step (s : SessionState) (ev : Ev) (h : installedQuiet s)
    (hev : ev ≠ Ev.bip) : installedQuiet (step s ev) := by
  obtain ⟨h1, h2⟩ := h
  cases ev <;> simp [step, installedQuiet, h1, h2] <;> split <;> simp_all

theorem installedQuiet_run (s : SessionState) (evs : List Ev) (h : installedQuiet s)
    (hb : Ev.bip ∉ evs) : installedQuiet (run s evs) := by
  induction evs generalizing s with
  | nil => exact h
  | cons ev evs ih =>
    rw [List.mem_cons] at hb
    push_neg at hb
    exact ih _ (installedQuiet_step s ev h (Ne.symm hb.1)) hb.2

theorem guidanceShown_of_none (s : SessionState) (h : s.promptType = PromptType.none) :
    guidanceShown s = false := by
  simp [guidanceShown, h]

/-- In a native-branch session where the availability signal never fires,
nothing can ever become visible: no show timer is pending, the fallback
timer is absent (non-Android), and only the `bip` handler creates either. -/
def calm (s : SessionState) : Prop :=
  s.visible = false ∧ s.pendingShow = false ∧ s.fallbackTimer = false ∧ s.deferredPrompt = false

theorem calm_step (s : SessionState) (ev : Ev) (h : calm s) (hev : ev ≠ Ev.bip) :
    calm (step s ev) := by
  obtain ⟨h1, h2, h3, h4⟩ := h
  cases ev <;>
    first
      | exact absurd rfl hev
      | (simp only [step]; (repeat' split) <;> simp_all [calm])

theorem calm_run (s : SessionState) (evs : List Ev) (h : calm s) (hb : Ev.bip ∉ evs) :
    calm (run s evs) := by
  induction evs generalizing s with
  | nil => exact h
  | cons ev evs ih =>
    rw [List.mem_cons] at hb
    push_neg at hb
    exact ih _ (calm_step s ev h (Ne.symm hb.1)) hb.2

/-- The fallback timer stays armed and the `nativeFired` guard stays clear
as long as neither the availability signal, nor the timer's own expiry, nor
unmount occurs. -/
def armedFallback (s : SessionState) : Prop :=
  s.fallbackTimer = true ∧ s.nativeFired = false

theorem armedFallback_step (s : SessionState) (ev : Ev) (h : armedFallback s)
    (hb : ev ≠ Ev.bip) (hu : ev ≠ Ev.unmount) (hf : ev ≠ Ev.fallbackTimer) :
    armedFallback (step s ev) := by
  obtain ⟨h1, h2⟩ := h
  cases ev <;>
    first
      | exact absurd rfl hb
      | exact absurd rfl hu
      | exact absurd rfl hf
      | (simp only [step]; (repeat' split) <;> simp_all [armedFallback])

theorem armedFallback_run (s : SessionState) (evs : List Ev) (h : armedFallback s)
    (hb : Ev.bip ∉ evs) (hu : Ev.unmount ∉ evs) (hf : Ev.fallbackTimer ∉ evs) :
    armedFallback (run s evs) := by
  induction evs generalizing s with
  | nil => exact h
  | cons ev evs ih =>
    rw [List.mem_cons] at hb hu hf
    push_neg at hb hu hf
    exact ih _ (armedFallback_step s ev h (Ne.symm hb.1) (Ne.symm hu.1) (Ne.symm hf.1))
      hb.2 hu.2 hf.2

/-- The shape of the mount result on the native-capable branch. -/
theorem mount_native (e : Env) (st : Storage) (now : Int)
    (hd : detectPlatform e = (PromptType.native, false))
    (hc : cooldownActive st now = false) :
    mount e st now
      = { initS st with
          bipListener := true
          aiListener := true
          fallbackTimer := testAndroid e.ua } := by
  unfold mount
  rw [hd, hc]
  simp

/-! ## Claim C1 — classifier rule order -/

/-- C1, counterexample: the claim's signature list names bare `QQ`, but the
source regex requires `QQ/`.  On a user agent carrying `QQ` without a
following slash, the claim's cascade classifies in-app-browser while
`detectPlatform` classifies `ios-safari` — so the claim, as stated, fails. -/
theorem detectPlatform_claimed_sigs_counterexample :
    specClassifyClaimed envQQ = PromptType.wechat
      ∧ (detectPlatform envQQ).1 = PromptType.iosSafari
      ∧ specClassifyClaimed envQQ ≠ (detectPlatform envQQ).1 := by
  refine ⟨by decide, by decide, by decide⟩

/-- C1, amended: for every environment, `detectPlatform` evaluates the
claimed rules in strict order with the first match winning — standalone
yields `none`; otherwise a user agent matching the in-app signature list
(`MicroMessenger`, `QQ/` with a slash, `wxwork`, `DingTalk`, `Weibo`,
case-insensitively) yields the in-app classification even on iOS; otherwise
an iOS device with the `Safari` token and none of `Chrome`, `CriOS`,
`FxiOS`, `EdgiOS`, `OPiOS` yields `ios-safari`; otherwise an iOS device
yields `ios-other`; otherwise the native-install candidate. -/
theorem detectPlatform_matches_spec_cascade (e : Env) :
    (detectPlatform e).1 = specClassify e := by
  unfold detectPlatform specClassify specClassifyWith testInApp testSafariUA
  rcases hs : isStandaloneEnv e
  · rcases ha : containsAnyOfCI e.ua codeInAppSigs
    · rcases hi : testIOS e
      · simp [hs, ha, hi]
      · rcases hsf : strContains e.ua "Safari"
          && !containsAnyOf e.ua ["Chrome", "CriOS", "FxiOS", "EdgiOS", "OPiOS"]
        · simp [hs, ha, hi, hsf]
        · simp [hs, ha, hi, hsf]
    · simp [hs, ha]
  · simp [hs]

/-! ## Claim C10 — `none` iff standalone; non-standalone gets one of the
five guidance classifications -/

/-- C10: for every environment, `detectPlatform` returns `promptType = none`
exactly when it returns `isStandalone = true`, and every non-standalone
environment is assigned one of the five guidance classifications. -/
theorem detectPlatform_none_iff_standalone (e : Env) :
    (decide ((detectPlatform e).1 = PromptType.none) = (detectPlatform e).2)
      ∧ ((detectPlatform e).2 = true
          ∨ (detectPlatform e).1 ∈ [PromptType.native, PromptType.iosSafari,
              PromptType.iosOther, PromptType.wechat, PromptType.androidFallback]) := by
  unfold detectPlatform
  rcases hs : isStandaloneEnv e
  · rcases ha : testInApp e.ua
    · rcases hi : testIOS e
      · simp [hs, ha, hi]
      · rcases hsf : testSafariUA e.ua <;> simp [hs, ha, hi, hsf]
    · simp [hs, ha]
  · simp [hs]

/-! ## Claim C8 — lookup fallback chain -/

/-- C8: for every active language and every key of the fixed key set, the
lookup `t` follows the claimed chain: the active language's entry first,
else the default language `'en'`'s entry, else the key string itself —
where "absent" is read as the JS-falsy empty string, the only notion of
absence the total dictionary record admits (and the one the source's `||`
chain actually tests). -/
theorem lookup_fallback_chain (lang : Language) (key : TKey) :
    t lang key = lookupSpec lang key := by
  unfold t jsOr lookupSpec
  by_cases h1 : translations lang key = "" <;>
    by_cases h2 : translations Language.en key = "" <;>
      simp [h1, h2]

/-! ## Claim C9 — language switching round-trips -/

/-- C9: from any store state whose active language is `'en'`, calling
`setLanguage('zh')` and then `setLanguage('en')` restores the original
lookup output for every key. -/
theorem language_roundtrip (s : I18nStore) (h : s.language = Language.en) (key : TKey) :
    storeT (setLanguage Language.en (setLanguage Language.zh s)) key = storeT s key := by
  simp [storeT, setLanguage, h]

/-- C9, witness: the round trip from the store's initial state, checked on
the `gameOver` key. -/
theorem language_roundtrip_witness :
    initialStore.language = Language.en
      ∧ storeT (setLanguage Language.en (setLanguage Language.zh initialStore)) TKey.gameOver
        = storeT initialStore TKey.gameOver :=
  ⟨rfl, language_roundtrip initialStore rfl TKey.gameOver⟩

/-! ## Claim C2 — dismissal cooldown suppresses all guidance -/

/-- Shared helper: with a stored dismissal timestamp inside the 24-hour
window, the mount is an early return and the whole session stays dormant,
so no guidance can ever be on screen. -/
theorem cooldown_run_no_guidance (e : Env) (t0 now : Int) (evs : List Ev)
    (h : now - t0 < 24 * 60 * 60 * 1000) :
    guidanceShown (run (mount e { dismissedAt := Option.some t0 } now) evs) = false := by
  have hc : cooldownActive { dismissedAt := Option.some t0 } now = true := by
    simp only [cooldownActive, decide_eq_true_eq]
    omega
  rw [mount_of_cooldown e _ now hc]
  exact dormant_no_guidance _ evs (dormant_initS _)

/-- C2: in every session whose storage holds a dismissal timestamp with
`now - t0` under 24 hours, no guidance is ever shown, whatever the
environment (hence whatever platform classification would have applied) and
whatever events the session delivers. -/
theorem cooldown_suppresses_guidance (e : Env) (t0 now : Int) (evs : List Ev)
    (h : now - t0 < 24 * 60 * 60 * 1000) :
    guidanceShown (run (mount e { dismissedAt := Option.some t0 } now) evs) = false :=
  cooldown_run_no_guidance e t0 now evs h

/-- C2, witness: a dismissal one hour old suppresses guidance on an iPhone
Safari environment even when the show timer fires. -/
theorem cooldown_suppresses_guidance_witness :
    ((3600000 : Int) - 0 < 24 * 60 * 60 * 1000)
      ∧ guidanceShown
          (run (mount envIPhoneSafari { dismissedAt := Option.some 0 } 3600000)
            [Ev.showTimer, Ev.bip, Ev.fallbackTimer]) = false :=
  ⟨by decide, cooldown_suppresses_guidance envIPhoneSafari 0 3600000
    [Ev.showTimer, Ev.bip, Ev.fallbackTimer] (by decide)⟩

/-! ## Claim C3 — does the cooldown check precede classification? -/

/-- C3, counterexample: with a dismissal timestamp well inside the 24-hour
window, the mount effect still performs the platform classification — the
`detectPlatform()` call is the first action of the effect, before the
storage read that implements the cooldown check — contradicting the claim
that classification is not performed in a suppressed session. -/
theorem cooldown_mount_classifies_counterexample :
    cooldownActive { dismissedAt := Option.some 0 } 1000 = true
      ∧ Action.classify ∈ mountTrace envIPhoneSafari { dismissedAt := Option.some 0 } 1000
      ∧ (mountTrace envIPhoneSafari { dismissedAt := Option.some 0 } 1000).head?
        = Option.some Action.classify := by
  refine ⟨by decide, by decide, by decide⟩

/-- C3, amended: when a dismissal timestamp within the window exists at
mount, the advisor does end the session suppressed — it registers no
listener and arms no timer, and no guidance can ever appear — but the
platform classification IS performed, and first: the cooldown check follows
it (and the standalone check) in evaluation order, preceding only the
listener registrations and timer arming. -/
theorem cooldown_mount_suppressed_after_classify (e : Env) (t0 now : Int)
    (h : now - t0 < 24 * 60 * 60 * 1000) :
    mount e { dismissedAt := Option.some t0 } now = initS { dismissedAt := Option.some t0 }
      ∧ (mountTrace e { dismissedAt := Option.some t0 } now).head? = Option.some Action.classify
      ∧ ∀ a ∈ mountTrace e { dismissedAt := Option.some t0 } now,
          a = Action.classify ∨ a = Action.readDismissRecord := by
  have hc : cooldownActive { dismissedAt := Option.some t0 } now = true := by
    simp only [cooldownActive, decide_eq_true_eq]
    omega
  refine ⟨mount_of_cooldown e _ now hc, ?_, ?_⟩
  · unfold mountTrace
    rfl
  · intro a ha
    unfold mountTrace at ha
    cases hd2 : (detectPlatform e).2 <;> simp [hd2, hc] at ha <;> tauto

/-- C3, witness: the amended statement at a concrete suppressed mount. -/
theorem cooldown_mount_suppressed_after_classify_witness :
    ((1000 : Int) - 0 < 24 * 60 * 60 * 1000)
      ∧ (mount envIPhoneSafari { dismissedAt := Option.some 0 } 1000
          = initS { dismissedAt := Option.some 0 }
        ∧ (mountTrace envIPhoneSafari { dismissedAt := Option.some 0 } 1000).head?
          = Option.some Action.classify
        ∧ ∀ a ∈ mountTrace envIPhoneSafari { dismissedAt := Option.some 0 } 1000,
            a = Action.classify ∨ a = Action.readDismissRecord) :=
  ⟨by decide, cooldown_mount_suppressed_after_classify envIPhoneSafari 0 1000 (by decide)⟩

/-! ## Claim C5 — dismiss persists the timestamp -/

/-- C5, counterexample: the repository's legacy prompt component also has a
dismiss control on its shown card, and its `handleDismiss` hides the card
but writes nothing to storage — so "whenever the user activates the dismiss
control on any shown guidance variant ... the timestamp is persisted" fails
for that variant. -/
theorem legacy_dismiss_no_persist_counterexample :
    (legacyHandleDismiss
        { showPrompt := true
          isInstalled := false
          deferredPrompt := true
          storage := { dismissedAt := Option.none } }).showPrompt = false
      ∧ (legacyHandleDismiss
          { showPrompt := true
            isInstalled := false
            deferredPrompt := true
            storage := { dismissedAt := Option.none } }).storage.dismissedAt = Option.none := by
  refine ⟨rfl, rfl⟩

/-- C5, amended: in the full install advisor, activating the dismiss control
on any shown guidance hides the guidance and persists the current wall
clock under the fixed dismissal key, and every subsequent load within 24
hours of that dismissal suppresses guidance for its whole session; the
legacy prompt component's dismiss, by contrast, only hides its card. -/
theorem dismiss_persists_and_suppresses (s : SessionState) (now : Int)
    (_hshown : guidanceShown s = true) :
    guidanceShown (step s (Ev.dismiss now)) = false
      ∧ (step s (Ev.dismiss now)).storage.dismissedAt = Option.some now
      ∧ ∀ (e : Env) (now2 : Int), now2 - now < 24 * 60 * 60 * 1000 →
          ∀ evs : List Ev,
            guidanceShown (run (mount e (step s (Ev.dismiss now)).storage now2) evs) = false := by
  refine ⟨?_, rfl, ?_⟩
  · exact guidanceShown_of_not_visible _ rfl
  · intro e now2 h2 evs
    exact cooldown_run_no_guidance e now now2 evs h2

/-- C5, witness: a WeChat-classified session whose show timer has fired has
guidance on screen; dismissing at time 500 hides it, persists 500, and a
reload at time 600 is suppressed. -/
theorem dismiss_persists_and_suppresses_witness :
    guidanceShown (run (mount envWeChat { dismissedAt := Option.none } 0) [Ev.showTimer]) = true
      ∧ (guidanceShown
            (step (run (mount envWeChat { dismissedAt := Option.none } 0) [Ev.showTimer])
              (Ev.dismiss 500)) = false
        ∧ (step (run (mount envWeChat { dismissedAt := Option.none } 0) [Ev.showTimer])
            (Ev.dismiss 500)).storage.dismissedAt = Option.some 500
        ∧ ∀ (e : Env) (now2 : Int), now2 - 500 < 24 * 60 * 60 * 1000 →
            ∀ evs : List Ev,
              guidanceShown
                (run
                  (mount e
                    (step (run (mount envWeChat { dismissedAt := Option.none } 0) [Ev.showTimer])
                      (Ev.dismiss 500)).storage now2)
                  evs) = false) :=
  ⟨by decide,
    dismiss_persists_and_suppresses
      (run (mount envWeChat { dismissedAt := Option.none } 0) [Ev.showTimer]) 500 (by decide)⟩

/-! ## Claim C4 — unmount cleanup (code bug) -/

/-- C4, evaluation at the failing input: the cleanup function returned by
the mount effect removes only the `beforeinstallprompt` listener and clears
the fallback timer.  After unmounting a native-branch session the
`appinstalled` listener is still registered (the source adds it as an
anonymous function and never removes it) and its handler still runs; and in
a WeChat-branch session the pending display-delay timer survives unmount
and, on firing, puts guidance on screen after teardown. -/
theorem unmount_leaves_callbacks_live :
    (run (mount envDesktop { dismissedAt := Option.none } 0) [Ev.unmount]).aiListener = true
      ∧ (run (mount envDesktop { dismissedAt := Option.none } 0)
          [Ev.bip, Ev.unmount]).deferredPrompt = true
      ∧ (run (mount envDesktop { dismissedAt := Option.none } 0)
          [Ev.bip, Ev.unmount, Ev.appInstalled]).deferredPrompt = false
      ∧ guidanceShown
          (run (mount envWeChat { dismissedAt := Option.none } 0) [Ev.unmount, Ev.showTimer])
        = true := by
  refine ⟨by decide, by decide, by decide, by decide⟩

/-! ## Claim C6 — does the completed signal preempt every pending timer? -/

/-- C6, counterexample: on Android in the native branch, the
installation-completed signal is received and handled (the classification
is reset to `none`), yet guidance still appears afterwards: the 3.5-unit
fallback timer is not preempted — its guard is `nativeFired`, which the
completed handler does not set — so it fires and shows the
`android-fallback` card.  "Guidance never appears for the rest of the
session" therefore fails as stated. -/
theorem appinstalled_not_preempt_fallback_counterexample :
    (run (mount envAndroid { dismissedAt := Option.none } 0) [Ev.appInstalled]).promptType
        = PromptType.none
      ∧ guidanceShown
          (run (mount envAndroid { dismissedAt := Option.none } 0)
            [Ev.appInstalled, Ev.fallbackTimer]) = true := by
  refine ⟨by decide, by decide⟩

/-- C6, amended: in the native-capable path (the only one that registers
the completed listener), once the availability signal has arrived and the
completed signal is then received, the completed handler resets the
classification to `none`, and no later event — in particular a pending
display-delay timer firing — can put guidance on screen, as long as no
further availability signal arrives.  (The Android fallback timeout is
preempted here only because the availability signal set `nativeFired`;
without a prior availability signal it is not preempted, and in non-native
paths the completed listener is not even registered.) -/
theorem appinstalled_preempts_show_timer (e : Env) (st : Storage) (now : Int)
    (pre post : List Ev)
    (hd : detectPlatform e = (PromptType.native, false))
    (hc : cooldownActive st now = false)
    (hnf : (run (mount e st now) pre).nativeFired = true)
    (hb : Ev.bip ∉ post) :
    guidanceShown (run (mount e st now) (pre ++ Ev.appInstalled :: post)) = false := by
  rw [run_append]
  have hai : (run (mount e st now) pre).aiListener = true := by
    rw [aiListener_run, mount_native e st now hd hc]
  rw [show (Ev.appInstalled :: post) = [Ev.appInstalled] ++ post from rfl, run_append]
  have hquiet : installedQuiet (run (run (mount e st now) pre) [Ev.appInstalled]) := by
    show installedQuiet (step (run (mount e st now) pre) Ev.appInstalled)
    unfold step
    rw [hai]
    exact ⟨by simp, by simpa using hnf⟩
  exact guidanceShown_of_none _ (installedQuiet_run _ post hquiet hb).1

/-- C6, witness: on Android, availability signal, then completed signal,
then the pending display-delay timer fires — no guidance. -/
theorem appinstalled_preempts_show_timer_witness :
    detectPlatform envAndroid = (PromptType.native, false)
      ∧ cooldownActive { dismissedAt := Option.none } 0 = false
      ∧ (run (mount envAndroid { dismissedAt := Option.none } 0) [Ev.bip]).nativeFired = true
      ∧ Ev.bip ∉ [Ev.showTimer, Ev.fallbackTimer]
      ∧ guidanceShown
          (run (mount envAndroid { dismissedAt := Option.none } 0)
            ([Ev.bip] ++ Ev.appInstalled :: [Ev.showTimer, Ev.fallbackTimer])) = false :=
  ⟨by decide, by decide, by decide, by decide,
    appinstalled_preempts_show_timer envAndroid { dismissedAt := Option.none } 0
      [Ev.bip] [Ev.showTimer, Ev.fallbackTimer] (by decide) (by decide) (by decide) (by decide)⟩

/-! ## Claim C7 — Android fallback timeout and the silent desktop case -/

/-- C7: in a native-capable session, (a) on Android, if the availability
signal has not arrived by the time the 3.5-unit fallback timer fires (and
the session was neither unmounted nor had the timer already fired), the
fallback guidance is on screen immediately at that point — visible in the
very state the timer's callback produces, with the `android-fallback`
variant; and (b) off Android, if the availability signal never arrives, no
guidance is ever shown at any point of the session. -/
theorem native_fallback_timing (e : Env) (st : Storage) (now : Int)
    (hd : detectPlatform e = (PromptType.native, false))
    (hc : cooldownActive st now = false) :
    (testAndroid e.ua = true →
      ∀ pre : List Ev, Ev.bip ∉ pre → Ev.unmount ∉ pre → Ev.fallbackTimer ∉ pre →
        (run (mount e st now) (pre ++ [Ev.fallbackTimer])).visible = true
          ∧ (run (mount e st now) (pre ++ [Ev.fallbackTimer])).promptType
            = PromptType.androidFallback)
      ∧ (testAndroid e.ua = false →
          ∀ evs : List Ev, Ev.bip ∉ evs →
            guidanceShown (run (mount e st now) evs) = false) := by
  constructor
  · intro hand pre hb hu hf
    have harm : armedFallback (run (mount e st now) pre) := by
      apply armedFallback_run _ pre _ hb hu hf
      rw [mount_native e st now hd hc]
      exact ⟨by simpa using hand, rfl⟩
    rw [run_append]
    obtain ⟨h1, h2⟩ := harm
    show (step (run (mount e st now) pre) Ev.fallbackTimer).visible = true
      ∧ (step (run (mount e st now) pre) Ev.fallbackTimer).promptType
        = PromptType.androidFallback
    unfold step
    rw [h1, h2]
    exact ⟨rfl, rfl⟩
  · intro hand evs hb
    have hcalm : calm (run (mount e st now) evs) := by
      apply calm_run _ evs _ hb
      rw [mount_native e st now hd hc]
      exact ⟨rfl, rfl, by simpa using hand, rfl⟩
    exact guidanceShown_of_not_visible _ hcalm.1

/-- C7, witness: at the Android environment (with a desktop check reachable
through the same theorem's second conjunct being vacuous there), the
fallback fires after a signal-free wait and shows the fallback card. -/
theorem native_fallback_timing_witness :
    detectPlatform envAndroid = (PromptType.native, false)
      ∧ cooldownActive { dismissedAt := Option.none } 0 = false
      ∧ ((testAndroid envAndroid.ua = true →
          ∀ pre : List Ev, Ev.bip ∉ pre → Ev.unmount ∉ pre → Ev.fallbackTimer ∉ pre →
            (run (mount envAndroid { dismissedAt := Option.none } 0)
                (pre ++ [Ev.fallbackTimer])).visible = true
              ∧ (run (mount envAndroid { dismissedAt := Option.none } 0)
                  (pre ++ [Ev.fallbackTimer])).promptType = PromptType.androidFallback)
        ∧ (testAndroid envAndroid.ua = false →
            ∀ evs : List Ev, Ev.bip ∉ evs →
              guidanceShown (run (mount envAndroid { dismissedAt := Option.none } 0) evs)
                = false)) :=
  ⟨by decide, by decide,
    native_fallback_timing envAndroid { dismissedAt := Option.none } 0 (by decide) (by decide)⟩

end RunnerGame
